import Mathlib

/-!
Shallow embedding of the s2e selective tracing core:
the MemoryTracer plugin (src/qemu/s2e/Plugins/ExecutionTracers/MemoryTracer.cpp)
and the Library module/debug-symbol resolver
(src/tools/lib/BinaryReaders/Library.cpp).

All machine integers (uint64_t) are modelled as Nat, with reductions
modulo 2 ^ 64 made explicit exactly where the C code can overflow.
Bitwise AND is Nat.land, and a C bitwise complement of a small literal,
converted to uint64_t, becomes the 64-bit complement U64 - 1 - lit.
-/

/-- 2 ^ 64, the modulus of uint64_t arithmetic. -/
def U64 : Nat := 2 ^ 64

/-- The uint64_t value of the C expression that complements 0x3FFFF:
the int complement sign-extends, so as uint64_t it is U64 - 1 - 0x3FFFF. -/
def NOT_0x3FFFF : Nat := U64 - 1 - 0x3FFFF

/-- The uint64_t value of a 64-bit complement of 0x1FFF (the 8 KiB mask the
spec describes); used to compare the spec mask against the code mask. -/
def NOT_0x1FFF : Nat := U64 - 1 - 0x1FFF

/-- The configuration fields the MemoryTracer reads in initialize()
(MemoryTracer.cpp lines 61-72): monitorStack, catchAccessesAbove,
timeTrigger, monitorMemory, monitorPageFaults, monitorTlbMisses. -/
structure FilterConfig where
  monitorStack : Bool
  catchAbove : Nat
  timeTrigger : Nat
  monitorMemory : Bool
  monitorPageFaults : Bool
  monitorTlbMisses : Bool
deriving DecidableEq

/-- MemoryTracer::decideTracing (MemoryTracer.cpp lines 85-101).
The execution state contributes only the stack pointer sp; addr and data
are the concretized address and value. The code masks both sp and addr
with the complement of 0x3FFFF and compares. -/
def decideTracing (cfg : FilterConfig) (sp addr data : Nat) : Bool :=
  if addr < cfg.catchAbove then
    false
  else if cfg.monitorStack then
    if Nat.land sp NOT_0x3FFFF == Nat.land addr NOT_0x3FFFF then true else false
  else
    true

/-- A klee expression: either a ConstantExpr carrying a value and a bit
width, or a non-constant (symbolic) expression of some width. -/
inductive KExpr where
  | constExpr (value : Nat) (width : Nat)
  | symbolic (width : Nat)
deriving DecidableEq

/-- isa klee ConstantExpr test. -/
def KExpr.isConstantExpr : KExpr → Bool
  | .constExpr _ _ => true
  | .symbolic _ => false

/-- cast to ConstantExpr and getZExtValue(64): the constant value as uint64. -/
def KExpr.getZExtValue64 : KExpr → Nat
  | .constExpr v _ => v % U64
  | .symbolic _ => 0

/-- Bit width of the expression. -/
def KExpr.width : KExpr → Nat
  | .constExpr _ w => w
  | .symbolic w => w

/-- Modelled from the spec: klee Expr getMinBytesForWidth, the minimal byte
width for a bit width (klee is an external collaborator, not under src/). -/
def getMinBytesForWidth (w : Nat) : Nat := (w + 7) / 8

/-- Modelled from the spec: the EXECTRACE_MEM_WRITE flag bit
(flags = isWrite shifted to bit 0, per spec section 4.3); the defining
header TraceEntries.h is not under src/. -/
def EXECTRACE_MEM_WRITE : Nat := 1

/-- Modelled from the spec: the EXECTRACE_MEM_IO flag bit
(flags = isIO shifted to bit 1, per spec section 4.3). -/
def EXECTRACE_MEM_IO : Nat := 2

/-- Record kind tags passed to ExecutionTracer::writeData. -/
inductive TraceKind where
  | memory
  | tlbMiss
  | pageFault
deriving DecidableEq

/-- ExecutionTraceMemory record as filled by onDataMemoryAccess. -/
structure ExecutionTraceMemory where
  pc : Nat
  address : Nat
  value : Nat
  size : Nat
  flags : Nat
deriving DecidableEq

/-- ExecutionTraceTlbMiss record as filled by onTlbMiss. -/
structure ExecutionTraceTlbMiss where
  pc : Nat
  address : Nat
  isWrite : Bool
deriving DecidableEq

/-- ExecutionTracePageFault record as filled by onPageFault. -/
structure ExecutionTracePageFault where
  pc : Nat
  address : Nat
  isWrite : Bool
deriving DecidableEq

/-- One record forwarded to the sink, tagged with its kind. -/
inductive TraceItem where
  | memory (e : ExecutionTraceMemory)
  | tlbMiss (e : ExecutionTraceTlbMiss)
  | pageFault (e : ExecutionTracePageFault)
deriving DecidableEq

/-- MemoryTracer::onDataMemoryAccess (MemoryTracer.cpp lines 103-130).
The execution state contributes pc and sp. Returns the list of
(kind, record) writes the call performs on the sink: empty when the
address or the value is not a ConstantExpr, or when decideTracing
rejects; a single TRACE_MEMORY record otherwise. -/
def onDataMemoryAccess (cfg : FilterConfig) (pc sp : Nat)
    (address hostAddress value : KExpr) (isWrite isIO : Bool) :
    List (TraceKind × TraceItem) :=
  if !address.isConstantExpr || !value.isConstantExpr then
    []
  else
    let addr := address.getZExtValue64
    let val := value.getZExtValue64
    if decideTracing cfg sp addr val then
      [(TraceKind.memory, TraceItem.memory
        { pc := pc
          address := addr
          value := val
          size := getMinBytesForWidth value.width
          flags := Nat.lor (if isWrite then EXECTRACE_MEM_WRITE else 0)
                           (if isIO then EXECTRACE_MEM_IO else 0) })]
    else
      []

/-- MemoryTracer::onTlbMiss (MemoryTracer.cpp lines 132-140): builds one
TRACE_TLBMISS record unconditionally. The cfg parameter stands for the
plugin member state, which the method never reads. -/
def onTlbMiss (cfg : FilterConfig) (pc addr : Nat) (is_write : Bool) :
    List (TraceKind × TraceItem) :=
  [(TraceKind.tlbMiss, TraceItem.tlbMiss
    { pc := pc, address := addr, isWrite := is_write })]

/-- MemoryTracer::onPageFault (MemoryTracer.cpp lines 142-150): builds one
TRACE_PAGEFAULT record unconditionally. -/
def onPageFault (cfg : FilterConfig) (pc addr : Nat) (is_write : Bool) :
    List (TraceKind × TraceItem) :=
  [(TraceKind.pageFault, TraceItem.pageFault
    { pc := pc, address := addr, isWrite := is_write })]

/-- The activation-relevant state of a MemoryTracer instance:
the elapsed tick counter, whether the onTimer signal connection is
still alive, which event callbacks are connected, and how many times
enableTracing has run (instrumentation for the exactly-once property). -/
structure TracerState where
  m_elapsedTics : Nat
  timerConnected : Bool
  memoryConnected : Bool
  pageFaultsConnected : Bool
  tlbMissesConnected : Bool
  enableCount : Nat
deriving DecidableEq

/-- MemoryTracer::enableTracing (MemoryTracer.cpp lines 152-171): connects
the data-memory, page-fault and TLB-miss callbacks according to the
monitor flags. -/
def enableTracing (cfg : FilterConfig) (st : TracerState) : TracerState :=
  { st with
    memoryConnected := st.memoryConnected || cfg.monitorMemory
    pageFaultsConnected := st.pageFaultsConnected || cfg.monitorPageFaults
    tlbMissesConnected := st.tlbMissesConnected || cfg.monitorTlbMisses
    enableCount := st.enableCount + 1 }

/-- MemoryTracer::initialize (MemoryTracer.cpp lines 54-83), restricted to
the activation state: m_elapsedTics starts at 0; with timeTrigger zero,
enableTracing runs immediately and no timer is connected; otherwise only
the onTimer connection is made. -/
def initTracer (cfg : FilterConfig) : TracerState :=
  let st : TracerState :=
    { m_elapsedTics := 0
      timerConnected := false
      memoryConnected := false
      pageFaultsConnected := false
      tlbMissesConnected := false
      enableCount := 0 }
  if cfg.timeTrigger = 0 then
    enableTracing cfg st
  else
    { st with timerConnected := true }

/-- MemoryTracer::onTimer (MemoryTracer.cpp lines 173-182): post-increments
m_elapsedTics; if the old value was below timeTrigger it returns, else it
runs enableTracing and disconnects the timer. -/
def onTimer (cfg : FilterConfig) (st : TracerState) : TracerState :=
  let st1 : TracerState := { st with m_elapsedTics := st.m_elapsedTics + 1 }
  if st.m_elapsedTics < cfg.timeTrigger then
    st1
  else
    { enableTracing cfg st1 with timerConnected := false }

/-- One external timer tick: the onTimer slot only runs while its
connection is alive; after disconnect the tick does not reach the plugin. -/
def onTick (cfg : FilterConfig) (st : TracerState) : TracerState :=
  if st.timerConnected then onTimer cfg st else st

/-- The tracer state after k external timer ticks following initialization. -/
def tickN (cfg : FilterConfig) : Nat → TracerState
  | 0 => initTracer cfg
  | k + 1 => onTick cfg (tickN cfg k)

/-- The Pending gate state after k ticks: counter k, timer alive, no event
callbacks connected, enableTracing never run. -/
def pendingState (k : Nat) : TracerState :=
  { m_elapsedTics := k
    timerConnected := true
    memoryConnected := false
    pageFaultsConnected := false
    tlbMissesConnected := false
    enableCount := 0 }

/-- The Active gate state reached from Pending: timer disconnected, event
callbacks connected per the monitor flags, enableTracing run once. -/
def activeState (cfg : FilterConfig) : TracerState :=
  { m_elapsedTics := cfg.timeTrigger + 1
    timerConnected := false
    memoryConnected := cfg.monitorMemory
    pageFaultsConnected := cfg.monitorPageFaults
    tlbMissesConnected := cfg.monitorTlbMisses
    enableCount := 1 }

/-- Wrapping uint64_t subtraction: a - b modulo 2 ^ 64. -/
def sub64 (a b : Nat) : Nat := (a + (U64 - b % U64)) % U64

/-- Wrapping uint64_t addition: a + b modulo 2 ^ 64. -/
def add64 (a b : Nat) : Nat := (a + b) % U64

/-- The image-relative address pc - loadBase + imageBase computed in
uint64_t arithmetic, as in Library::getInfo (Library.cpp line 167) and
Library::print (line 186). -/
def relAddr (pc loadBase imageBase : Nat) : Nat :=
  add64 (sub64 pc loadBase) imageBase

/-- s2etools::Library::translatePid (Library.cpp lines 50-56): pcs at or
above the kernel-space start collapse to the shared pseudo-owner 0. The
KernelStart command-line option is passed explicitly. -/
def translatePid (kernelStart pid pc : Nat) : Nat :=
  if pc ≥ kernelStart then 0 else pid

/-- Default of the KernelStart option (Library.cpp line 45). -/
def KernelStartDefault : Nat := 0x80000000

/-- A parsed executable: the oracle exec->getInfo(reladdr, file, line,
func) is a function from a relative address to an optional
(file, line, function) triple. -/
structure ExecutableFile where
  getInfoAt : Nat → Option (String × Nat × String)

/-- The external world the Library touches: which paths an ifstream can
open, and what ExecutableFile::create returns for a path (none models a
parse failure). -/
structure World where
  canOpen : String → Bool
  create : String → Option ExecutableFile

/-- ModuleInstance as used by Library::getInfo and Library::print. -/
structure ModuleInstance where
  Name : String
  LoadBase : Nat
  ImageBase : Nat

/-- s2etools::Library state: the search-path list, the positive cache
m_libraries (a path-keyed map of parsed executables), the negative cache
m_badLibraries, and parseLog, an instrumentation log recording each
invocation of ExecutableFile::create (for the parsed-at-most-once
property). -/
structure Library where
  m_libpath : List String
  m_libraries : List (String × ExecutableFile)
  m_badLibraries : List String
  parseLog : List String

/-- A freshly constructed Library: all containers empty. -/
def Library.empty : Library :=
  { m_libpath := [], m_libraries := [], m_badLibraries := [], parseLog := [] }

/-- std::map find on the positive cache, keyed by path. -/
def lookupModule : List (String × ExecutableFile) → String → Option ExecutableFile
  | [], _ => none
  | (k, v) :: rest, s => if k = s then some v else lookupModule rest s

/-- std::set find on the negative cache. -/
def memStr : List String → String → Bool
  | [], _ => false
  | x :: xs, s => if x = s then true else memStr xs s

/-- Number of occurrences of a path in the parse log. -/
def countStr : List String → String → Nat
  | [], _ => 0
  | x :: xs, s => (if x = s then 1 else 0) + countStr xs s

/-- Library::setPath (Library.cpp lines 72-84): appends the colon-separated
segments of s to m_libpath (the do-while over find and substr yields
exactly the colon-split segments, empty segments included). -/
def Library.setPath (st : Library) (s : String) : Library :=
  { st with m_libpath := st.m_libpath ++ s.splitOn ":" }

/-- The loop body of Library::findLibrary over the remaining path list:
the first directory whose join dir/libName is openable wins. -/
def findLibraryIn (w : World) : List String → String → Option String
  | [], _ => none
  | dir :: rest, libName =>
    let s := dir ++ "/" ++ libName
    if w.canOpen s then some s else findLibraryIn w rest libName

/-- Library::findLibrary (Library.cpp lines 87-101). -/
def Library.findLibrary (w : World) (st : Library) (libName : String) :
    Option String :=
  findLibraryIn w st.m_libpath libName

/-- Library::addLibraryAbs (Library.cpp lines 115-135): positive-cache hit
succeeds, negative-cache hit fails, otherwise ExecutableFile::create runs
exactly once and its outcome is cached. Returns (outcome, new state); the
parse log grows exactly when create is invoked. -/
def Library.addLibraryAbs (w : World) (st : Library) (libName : String) :
    Bool × Library :=
  if (lookupModule st.m_libraries libName).isSome then
    (true, st)
  else if memStr st.m_badLibraries libName then
    (false, st)
  else
    match w.create libName with
    | none =>
      (false, { st with
        m_badLibraries := libName :: st.m_badLibraries
        parseLog := libName :: st.parseLog })
    | some exec =>
      (true, { st with
        m_libraries := (libName, exec) :: st.m_libraries
        parseLog := libName :: st.parseLog })

/-- Library::addLibrary (Library.cpp lines 104-112): resolve the name via
findLibrary, then delegate to addLibraryAbs. -/
def Library.addLibrary (w : World) (st : Library) (libName : String) :
    Bool × Library :=
  match Library.findLibrary w st libName with
  | none => (false, st)
  | some s => Library.addLibraryAbs w st s

/-- Library::get (Library.cpp lines 138-156): findLibrary, addLibraryAbs,
then a positive-cache lookup for the handle. -/
def Library.get (w : World) (st : Library) (name : String) :
    Option ExecutableFile × Library :=
  match Library.findLibrary w st name with
  | none => (none, st)
  | some s =>
    let r := Library.addLibraryAbs w st s
    if r.1 then
      (lookupModule r.2.m_libraries s, r.2)
    else
      (none, r.2)

/-- Library::getInfo (Library.cpp lines 158-173): a null ModuleInstance
(mi = none) fails immediately; otherwise get the handle and query the
parser oracle at the wrapped relative address. -/
def Library.getInfo (w : World) (st : Library) (mi : Option ModuleInstance)
    (pc : Nat) : Option (String × Nat × String) × Library :=
  match mi with
  | none => (none, st)
  | some m =>
    let r := Library.get w st m.Name
    match r.1 with
    | none => (none, r.2)
    | some exec => (exec.getInfoAt (relAddr pc m.LoadBase m.ImageBase), r.2)

/-- Library::print by module name (Library.cpp lines 176-210): formats the
resolved location according to the file/line/func flags. -/
def Library.printMod (w : World) (st : Library) (modName : String)
    (loadBase imageBase pc : Nat) (file line func : Bool) :
    Option String × Library :=
  let r := Library.get w st modName
  match r.1 with
  | none => (none, r.2)
  | some exec =>
    match exec.getInfoAt (relAddr pc loadBase imageBase) with
    | none => (none, r.2)
    | some (source, ln, function) =>
      let s1 := if file then source else ""
      let s2 := s1 ++ (if line then ":" ++ toString ln else "")
      let s3 := s2 ++ (if func then " - " ++ function else "")
      (some s3, r.2)

/-- Library::print by ModuleInstance (Library.cpp lines 212-221): a null
ModuleInstance fails immediately. -/
def Library.print (w : World) (st : Library) (mi : Option ModuleInstance)
    (pc : Nat) (file line func : Bool) : Option String × Library :=
  match mi with
  | none => (none, st)
  | some m =>
    Library.printMod w st m.Name m.LoadBase m.ImageBase pc file line func

/-- One public Library call, for reasoning about arbitrary call sequences. -/
inductive LibOp where
  | setPath (s : String)
  | findLibrary (name : String)
  | addLibrary (name : String)
  | addLibraryAbs (path : String)
  | get (name : String)
  | getInfo (mi : Option ModuleInstance) (pc : Nat)
  | print (mi : Option ModuleInstance) (pc : Nat) (file line func : Bool)

/-- The state after performing one Library call (results discarded). -/
def runOp (w : World) (st : Library) : LibOp → Library
  | .setPath s => Library.setPath st s
  | .findLibrary _ => st
  | .addLibrary n => (Library.addLibrary w st n).2
  | .addLibraryAbs p => (Library.addLibraryAbs w st p).2
  | .get n => (Library.get w st n).2
  | .getInfo mi pc => (Library.getInfo w st mi pc).2
  | .print mi pc f l fn => (Library.print w st mi pc f l fn).2

/-- The state after a sequence of Library calls. -/
def runOps (w : World) (st : Library) : List LibOp → Library
  | [] => st
  | op :: rest => runOps w (runOp w st op) rest

/-- A concrete configuration exercising the stack filter:
monitorStack on, catchAccessesAbove 0. -/
def cfgC1 : FilterConfig :=
  { monitorStack := true, catchAbove := 0, timeTrigger := 0,
    monitorMemory := true, monitorPageFaults := false, monitorTlbMisses := false }

/-- A concrete configuration with a one-tick activation delay. -/
def cfgT1 : FilterConfig :=
  { monitorStack := false, catchAbove := 0, timeTrigger := 1,
    monitorMemory := true, monitorPageFaults := true, monitorTlbMisses := true }

/-- A concrete configuration with a two-tick activation delay. -/
def cfgT2 : FilterConfig :=
  { monitorStack := false, catchAbove := 0, timeTrigger := 2,
    monitorMemory := true, monitorPageFaults := true, monitorTlbMisses := true }

lemma tickN_pending (cfg : FilterConfig) (h : 0 < cfg.timeTrigger) :
    ∀ k, k ≤ cfg.timeTrigger → tickN cfg k = pendingState k := by
  intro k
  induction k with
  | zero =>
    intro _
    have h0 : cfg.timeTrigger ≠ 0 := Nat.pos_iff_ne_zero.mp h
    simp [tickN, initTracer, pendingState, h0]
  | succ n ih =>
    intro hk
    have hn : n ≤ cfg.timeTrigger := Nat.le_of_succ_le hk
    have hlt : n < cfg.timeTrigger := hk
    rw [tickN, ih hn]
    simp [onTick, onTimer, pendingState, hlt]

lemma tickN_active (cfg : FilterConfig) (h : 0 < cfg.timeTrigger) :
    tickN cfg (cfg.timeTrigger + 1) = activeState cfg := by
  rw [tickN, tickN_pending cfg h cfg.timeTrigger (Nat.le_refl _)]
  simp [onTick, onTimer, pendingState, activeState, enableTracing]

lemma tickN_stable (cfg : FilterConfig) (h : 0 < cfg.timeTrigger) :
    ∀ m, tickN cfg (cfg.timeTrigger + 1 + m) = activeState cfg := by
  intro m
  induction m with
  | zero => exact tickN_active cfg h
  | succ n ih =>
    have hs : cfg.timeTrigger + 1 + (n + 1) = (cfg.timeTrigger + 1 + n) + 1 := rfl
    rw [hs, tickN, ih]
    simp [onTick, activeState]

/-- Claim C2: with timeTrigger = N > 0, the first N onTick calls leave the
gate Pending with enableTracing never run and no event callbacks
connected; the (N+1)th tick runs enableTracing exactly once, connecting
the callbacks selected by the monitor flags; all later ticks leave the
state unchanged. With N = 0, initialization itself runs enableTracing
once and connects the callbacks. -/
theorem memoryTracer_activation_gate (cfg : FilterConfig) :
    (0 < cfg.timeTrigger →
      (∀ k, k ≤ cfg.timeTrigger →
        (tickN cfg k).enableCount = 0 ∧
        (tickN cfg k).memoryConnected = false ∧
        (tickN cfg k).pageFaultsConnected = false ∧
        (tickN cfg k).tlbMissesConnected = false) ∧
      ((tickN cfg (cfg.timeTrigger + 1)).enableCount = 1 ∧
       (tickN cfg (cfg.timeTrigger + 1)).memoryConnected = cfg.monitorMemory ∧
       (tickN cfg (cfg.timeTrigger + 1)).pageFaultsConnected = cfg.monitorPageFaults ∧
       (tickN cfg (cfg.timeTrigger + 1)).tlbMissesConnected = cfg.monitorTlbMisses) ∧
      (∀ m, tickN cfg (cfg.timeTrigger + 1 + m) = tickN cfg (cfg.timeTrigger + 1))) ∧
    (cfg.timeTrigger = 0 →
      (initTracer cfg).enableCount = 1 ∧
      (initTracer cfg).memoryConnected = cfg.monitorMemory ∧
      (initTracer cfg).pageFaultsConnected = cfg.monitorPageFaults ∧
      (initTracer cfg).tlbMissesConnected = cfg.monitorTlbMisses) := by
  constructor
  · intro h
    refine ⟨?_, ?_, ?_⟩
    · intro k hk
      rw [tickN_pending cfg h k hk]
      exact ⟨rfl, rfl, rfl, rfl⟩
    · rw [tickN_active cfg h]
      exact ⟨rfl, rfl, rfl, rfl⟩
    · intro m
      rw [tickN_stable cfg h m, tickN_active cfg h]
  · intro h0
    simp [initTracer, h0, enableTracing]

theorem memoryTracer_activation_gate_witness :
    0 < cfgT2.timeTrigger ∧
    (tickN cfgT2 1).enableCount = 0 ∧
    (tickN cfgT2 (cfgT2.timeTrigger + 1)).enableCount = 1 := by
  refine ⟨by decide, ?_, ?_⟩
  · exact (((memoryTracer_activation_gate cfgT2).1 (by decide)).1 1 (by decide)).1
  · exact ((((memoryTracer_activation_gate cfgT2).1 (by decide)).2).1).1

/-- Claim C3 counterexample: with timeTrigger = 1, the gate is still
Pending immediately after the first (= Nth) onTick call: enableTracing
has not run and the memory callback is not connected although
monitorMemory is set, contradicting the claim that the gate is Active
immediately after the Nth tick. -/
theorem memoryTracer_nth_tick_still_pending :
    (tickN cfgT1 1).enableCount = 0 ∧
    (tickN cfgT1 1).memoryConnected = false := by
  decide

/-- Claim C3 as amended: each onTick in Pending increments the elapsed-tick
count, and with timeTrigger = N > 0 the gate is still Pending after the
Nth tick; it becomes Active (enableTracing run once) only on the
(N+1)th tick, when the count exceeds N. -/
theorem memoryTracer_tick_count_activation (cfg : FilterConfig) :
    0 < cfg.timeTrigger →
      (∀ k, k ≤ cfg.timeTrigger →
        (tickN cfg k).m_elapsedTics = k ∧ (tickN cfg k).enableCount = 0) ∧
      ((tickN cfg (cfg.timeTrigger + 1)).m_elapsedTics = cfg.timeTrigger + 1 ∧
       (tickN cfg (cfg.timeTrigger + 1)).enableCount = 1) := by
  intro h
  constructor
  · intro k hk
    rw [tickN_pending cfg h k hk]
    exact ⟨rfl, rfl⟩
  · rw [tickN_active cfg h]
    exact ⟨rfl, rfl⟩

theorem memoryTracer_tick_count_activation_witness :
    0 < cfgT1.timeTrigger ∧
    (tickN cfgT1 (cfgT1.timeTrigger + 1)).enableCount = 1 := by
  refine ⟨by decide, ?_⟩
  exact ((memoryTracer_tick_count_activation cfgT1 (by decide)).2).2

/-- Claim C1, code versus spec at a concrete input: with monitorStack on,
catchAccessesAbove 0, sp = 0 and addr = 0x2000, decideTracing accepts
(the code masks with the complement of 0x3FFFF, putting both in the same
256 KiB region), yet addr and sp lie in different 8 KiB regions (their
complement-of-0x1FFF maskings differ), so the claimed 8 KiB-region
equivalence fails on the code; the comment in the source asserts the
8 KiB stack assumption the code does not implement. -/
theorem decideTracing_stack_mask_divergence :
    decideTracing cfgC1 0 0x2000 0 = true ∧
    Nat.land 0x2000 NOT_0x1FFF ≠ Nat.land 0 NOT_0x1FFF := by
  decide

/-- Claim C5: Library::getInfo queries the parser oracle of the resolved
executable exactly at the wrapped relative address
pc - loadBase + imageBase (mod 2 ^ 64); concretely, loadBase 0x1000,
imageBase 0x400000 and pc 0x1050 give 0x400050, and the subtraction may
wrap (pc 0, loadBase 1, imageBase 0 gives 2 ^ 64 - 1) with no range
check in the resolver. -/
theorem library_resolve_relative_address :
    (∀ (w : World) (st : Library) (m : ModuleInstance) (pc : Nat),
      (Library.getInfo w st (some m) pc).1 =
        match (Library.get w st m.Name).1 with
        | none => none
        | some exec => exec.getInfoAt (relAddr pc m.LoadBase m.ImageBase)) ∧
    relAddr 0x1050 0x1000 0x400000 = 0x400050 ∧
    relAddr 0 1 0 = U64 - 1 := by
  refine ⟨?_, by decide, by decide⟩
  intro w st m pc
  cases h : (Library.get w st m.Name).1 with
  | none => simp [Library.getInfo, h]
  | some exec => simp [Library.getInfo, h]

/-- Claim C6: a memory-access event whose address or value is not a
ConstantExpr produces no sink writes at all, for every configuration and
execution state: the handler returns before the filter runs. -/
theorem onDataMemoryAccess_symbolic_dropped
    (cfg : FilterConfig) (pc sp : Nat) (address hostAddress value : KExpr)
    (isWrite isIO : Bool)
    (h : address.isConstantExpr = false ∨ value.isConstantExpr = false) :
    onDataMemoryAccess cfg pc sp address hostAddress value isWrite isIO = [] := by
  unfold onDataMemoryAccess
  rcases h with h | h <;> simp [h]

theorem onDataMemoryAccess_symbolic_dropped_witness :
    ((KExpr.symbolic 64).isConstantExpr = false ∨
      (KExpr.constExpr 0x42 8).isConstantExpr = false) ∧
    onDataMemoryAccess cfgC1 0x1000 0x9000 (KExpr.symbolic 64)
      (KExpr.constExpr 0x2000 64) (KExpr.constExpr 0x42 8) true false = [] :=
  ⟨Or.inl rfl,
   onDataMemoryAccess_symbolic_dropped cfgC1 0x1000 0x9000 (KExpr.symbolic 64)
     (KExpr.constExpr 0x2000 64) (KExpr.constExpr 0x42 8) true false (Or.inl rfl)⟩

/-- Claim C7: translatePid returns the shared pseudo-owner 0 when pc is at
or above the kernel boundary and the pid unchanged below it; with the
default boundary 0x80000000, pid 7 at pc 0x7FFFFFFF stays 7 and at pc
0x80000000 becomes 0. -/
theorem translatePid_kernel_boundary :
    (∀ ks pid pc : Nat, ks ≤ pc → translatePid ks pid pc = 0) ∧
    (∀ ks pid pc : Nat, pc < ks → translatePid ks pid pc = pid) ∧
    translatePid KernelStartDefault 7 0x7FFFFFFF = 7 ∧
    translatePid KernelStartDefault 7 0x80000000 = 0 := by
  refine ⟨?_, ?_, by decide, by decide⟩
  · intro ks pid pc h
    simp [translatePid, h]
  · intro ks pid pc h
    simp [translatePid, Nat.not_le.mpr h]

theorem translatePid_kernel_boundary_witness :
    ((5 : Nat) ≤ 7 ∧ translatePid 5 9 7 = 0) ∧
    ((3 : Nat) < 5 ∧ translatePid 5 9 3 = 9) :=
  ⟨⟨by decide, translatePid_kernel_boundary.1 5 9 7 (by decide)⟩,
   ⟨by decide, translatePid_kernel_boundary.2.1 5 9 3 (by decide)⟩⟩

/-- Claim C8: every delivered TLB-miss and page-fault event yields exactly
one record carrying pc, address and the write flag, forwarded under the
matching record kind, for every configuration: no address floor and no
stack filtering is applied. -/
theorem tlbMiss_pageFault_unconditional
    (cfg : FilterConfig) (pc addr : Nat) (wr : Bool) :
    onTlbMiss cfg pc addr wr =
      [(TraceKind.tlbMiss, TraceItem.tlbMiss
        { pc := pc, address := addr, isWrite := wr })] ∧
    onPageFault cfg pc addr wr =
      [(TraceKind.pageFault, TraceItem.pageFault
        { pc := pc, address := addr, isWrite := wr })] :=
  ⟨rfl, rfl⟩

/-- Claim C9: Library::getInfo and Library::print with a null
ModuleInstance return an absent result and leave the whole Library state
(search path, both caches and the parse log) unchanged, for every world,
so neither the path search nor the parser oracle is consulted. -/
theorem getInfo_print_null_module
    (w : World) (st : Library) (pc : Nat) (f l fn : Bool) :
    Library.getInfo w st none pc = (none, st) ∧
    Library.print w st none pc f l fn = (none, st) :=
  ⟨rfl, rfl⟩

/-- The parse-log invariant: a path occurs in the parse log exactly once
if it sits in the positive or the negative cache, and never otherwise. -/
def cacheInv (st : Library) : Prop :=
  ∀ p : String,
    countStr st.parseLog p =
      (if (lookupModule st.m_libraries p).isSome || memStr st.m_badLibraries p
       then 1 else 0)

/-- The caches never share a key: no path is simultaneously a positive and
a negative cache entry. -/
def cacheDisjoint (st : Library) : Prop :=
  ∀ p : String,
    ((lookupModule st.m_libraries p).isSome && memStr st.m_badLibraries p) = false

/-- The combined reachable-state invariant of the Library caches. -/
def cacheOk (st : Library) : Prop := cacheInv st ∧ cacheDisjoint st

lemma cacheOk_empty : cacheOk Library.empty := by
  constructor <;> intro p <;> simp [Library.empty, cacheInv, cacheDisjoint,
    countStr, lookupModule, memStr]

lemma addLibraryAbs_cacheOk (w : World) (st : Library) (p : String)
    (h : cacheOk st) : cacheOk (Library.addLibraryAbs w st p).2 := by
  obtain ⟨h1, h2⟩ := h
  unfold Library.addLibraryAbs
  split
  · exact ⟨h1, h2⟩
  · split
    · exact ⟨h1, h2⟩
    · rename_i hpos hneg
      cases hc : w.create p with
      | none =>
        simp only [hc]
        constructor
        · intro q
          by_cases hq : p = q
          · subst hq
            have hcount := h1 p
            simp only [Bool.not_eq_true] at hpos hneg
            simp [countStr, memStr, lookupModule, hpos, hneg] at hcount ⊢
            exact hcount
          · have hcount := h1 q
            simpa [countStr, memStr, hq] using hcount
        · intro q
          by_cases hq : p = q
          · subst hq
            simp only [Bool.not_eq_true] at hpos
            simp [memStr, hpos]
          · have hd := h2 q
            simpa [memStr, hq] using hd
      | some exec =>
        simp only [hc]
        constructor
        · intro q
          by_cases hq : p = q
          · subst hq
            have hcount := h1 p
            simp only [Bool.not_eq_true] at hpos hneg
            simp [countStr, lookupModule, hpos, hneg] at hcount ⊢
            exact hcount
          · have hcount := h1 q
            simpa [countStr, lookupModule, hq] using hcount
        · intro q
          by_cases hq : p = q
          · subst hq
            simp only [Bool.not_eq_true] at hneg
            simp [lookupModule, memStr, hneg]
          · have hd := h2 q
            simpa [lookupModule, hq] using hd

lemma get_snd (w : World) (st : Library) (name : String) :
    (Library.get w st name).2 =
      match Library.findLibrary w st name with
      | none => st
      | some s => (Library.addLibraryAbs w st s).2 := by
  unfold Library.get
  cases Library.findLibrary w st name with
  | none => rfl
  | some s =>
    by_cases hr : (Library.addLibraryAbs w st s).1 = true <;> simp [hr]

lemma get_cacheOk (w : World) (st : Library) (name : String)
    (h : cacheOk st) : cacheOk (Library.get w st name).2 := by
  rcases hf : Library.findLibrary w st name with _ | s
  · rw [get_snd, hf]
    exact h
  · rw [get_snd, hf]
    exact addLibraryAbs_cacheOk w st s h

lemma getInfo_some_snd (w : World) (st : Library) (m : ModuleInstance)
    (pc : Nat) :
    (Library.getInfo w st (some m) pc).2 = (Library.get w st m.Name).2 := by
  unfold Library.getInfo
  cases h : (Library.get w st m.Name).1 <;> simp [h]

lemma printMod_snd (w : World) (st : Library) (modName : String)
    (lb ib pc : Nat) (f l fn : Bool) :
    (Library.printMod w st modName lb ib pc f l fn).2 =
      (Library.get w st modName).2 := by
  unfold Library.printMod
  cases h : (Library.get w st modName).1 with
  | none => simp [h]
  | some exec =>
    cases hg : exec.getInfoAt (relAddr pc lb ib) with
    | none => simp [h, hg]
    | some t =>
      obtain ⟨source, ln, function⟩ := t
      simp [h, hg]

lemma runOp_cacheOk (w : World) (st : Library) (op : LibOp)
    (h : cacheOk st) : cacheOk (runOp w st op) := by
  cases op with
  | setPath s => exact ⟨h.1, h.2⟩
  | findLibrary n => exact h
  | addLibrary n =>
    show cacheOk (Library.addLibrary w st n).2
    unfold Library.addLibrary
    rcases hf : Library.findLibrary w st n with _ | s
    · exact h
    · exact addLibraryAbs_cacheOk w st s h
  | addLibraryAbs p => exact addLibraryAbs_cacheOk w st p h
  | get n => exact get_cacheOk w st n h
  | getInfo mi pc =>
    cases mi with
    | none => exact h
    | some m =>
      show cacheOk (Library.getInfo w st (some m) pc).2
      rw [getInfo_some_snd]
      exact get_cacheOk w st m.Name h
  | print mi pc f l fn =>
    cases mi with
    | none => exact h
    | some m =>
      show cacheOk (Library.print w st (some m) pc f l fn).2
      show cacheOk (Library.printMod w st m.Name m.LoadBase m.ImageBase pc f l fn).2
      rw [printMod_snd]
      exact get_cacheOk w st m.Name h

lemma runOps_cacheOk (w : World) (ops : List LibOp) :
    ∀ st : Library, cacheOk st → cacheOk (runOps w st ops) := by
  induction ops with
  | nil => intro st h; exact h
  | cons op rest ih =>
    intro st h
    exact ih (runOp w st op) (runOp_cacheOk w st op h)

/-- Claim C4: addLibraryAbs is idempotent in its success/failure outcome
(a second call on the resulting state returns the same Boolean), and
across every sequence of Library calls from a fresh cache,
ExecutableFile::create runs at most once per absolute path (the parse
log never holds a path twice). -/
theorem library_parse_once_idempotent :
    (∀ (w : World) (st : Library) (p : String),
      (Library.addLibraryAbs w (Library.addLibraryAbs w st p).2 p).1 =
        (Library.addLibraryAbs w st p).1) ∧
    (∀ (w : World) (ops : List LibOp) (p : String),
      countStr (runOps w Library.empty ops).parseLog p ≤ 1) := by
  constructor
  · intro w st p
    by_cases hpos : (lookupModule st.m_libraries p).isSome = true
    · simp [Library.addLibraryAbs, hpos]
    · by_cases hneg : memStr st.m_badLibraries p = true
      · simp [Library.addLibraryAbs, hpos, hneg]
      · cases hc : w.create p with
        | none =>
          simp [Library.addLibraryAbs, hpos, hneg, hc, memStr]
        | some exec =>
          simp [Library.addLibraryAbs, hpos, hneg, hc, lookupModule]
  · intro w ops p
    have h := (runOps_cacheOk w ops Library.empty cacheOk_empty).1 p
    rw [h]
    split <;> simp

/-- Claim C10: from the empty caches, every sequence of setPath,
findLibrary, addLibrary, addLibraryAbs, get, getInfo and print calls
keeps the positive cache m_libraries and the negative cache
m_badLibraries key-disjoint. -/
theorem library_caches_key_disjoint :
    ∀ (w : World) (ops : List LibOp) (p : String),
      ((lookupModule (runOps w Library.empty ops).m_libraries p).isSome &&
        memStr (runOps w Library.empty ops).m_badLibraries p) = false := by
  intro w ops p
  exact (runOps_cacheOk w ops Library.empty cacheOk_empty).2 p
